import Mathlib

/-!
Verification of the JSON document store implemented by
`admin_data.py` (class AdminDataManager) and `searched_usernames.py`
(class SearchedUsernameManager).  Both classes persist one JSON document
in one file, with a retrying load path, an atomic-rename save path and
schema backfill of declared top-level keys.

Modelling conventions:
* The Python json codec (json.dump / json.load) is treated as a trusted
  primitive: a file holding a successfully dumped document `d` is the
  state `FileState.stored d`, any unparseable content is
  `FileState.corrupt`, an absent file is `FileState.missing`.
* Python exceptions are mapped to the error taxonomy of the design
  document: FileNotFoundError to `notFound`, json.JSONDecodeError to
  `documentCorrupt`, OSError / IOError to `storageError`; the mutual
  recursion between load_data and init_database on a persistently
  corrupt file ends in a Python RecursionError, mapped to
  `recursionError`; the unreachable final raise of each retry loop is
  `exhausted`.
* I/O nondeterminism (what opening the file yields at each retry
  attempt, whether a write attempt fails) is passed in as an explicit
  environment argument; time.sleep is recorded as data (milliseconds)
  instead of really sleeping; datetime.now().isoformat() and the random
  hash-code generator are passed in as string parameters.
-/

namespace Safe

/-- Error taxonomy of the store (design document section 7), with the
Python exceptions of the source mapped onto it as described in the
header of this file. -/
inductive StoreErr
  | notFound
  | documentCorrupt
  | storageError
  | recursionError
  | exhausted
deriving DecidableEq, Repr

/-- On-disk state of one collection file. -/
inductive FileState (α : Type)
  | missing
  | corrupt
  | stored (d : α)
deriving DecidableEq, Repr

/-- The retry budget: `max_retries = 5` in load_data, _load_data,
save_data and _save_data. -/
def maxRetries : Nat := 5

/-- The base delay: `retry_delay = 0.1` seconds, expressed in
milliseconds. -/
def retryDelayMs : Nat := 100

/-- Milliseconds slept after a failed attempt:
`time.sleep(retry_delay * (attempt + 1))`. -/
def sleepMs (attempt : Nat) : Nat := retryDelayMs * (attempt + 1)

/-- What opening and parsing the collection file yields at one attempt
of the load loop: success with a document, FileNotFoundError,
json.JSONDecodeError, or an OSError / IOError. -/
inductive ReadOut (α : Type)
  | ok (d : α)
  | fileMissing
  | badJson
  | ioError
deriving DecidableEq, Repr

/-- Observable outcome of one run of the load loop: the returned
document or raised error, the sleeps performed (in ms, in order), how
many open-and-parse attempts were made, and whether init_database was
invoked from inside the loop. -/
structure LoadRes (α : Type) where
  result : Except StoreErr α
  sleeps : List Nat
  attempts : Nat
  initRan : Bool
deriving Repr

/-- The retry loop of load_data (admin_data.py lines 148 to 175) and of
_load_data (searched_usernames.py lines 28 to 45).  `env a` is what the
open-and-parse step yields at attempt `a` (the file can change between
attempts, because init_database or another writer runs in between);
`ensure` is the in-memory key backfill applied to a parsed document
before returning it; `initOut` is the outcome of the `init_database()`
call made on a first-attempt failure: `none` when it returns normally,
`some e` when it raises `e` (an exception raised inside the except
handler propagates out of the loop).  The first numeric argument is the
current attempt index, the second the number of loop iterations left. -/
def loadGo (env : Nat → ReadOut α) (ensure : α → α) (initOut : Option StoreErr) :
    Nat → Nat → LoadRes α
  | _, 0 => ⟨.error .exhausted, [], 0, false⟩
  | a, r + 1 =>
    match env a with
    | .ok d => ⟨.ok (ensure d), [], 1, false⟩
    | .fileMissing =>
      if a = 0 then
        match initOut with
        | some e => ⟨.error e, [], 1, true⟩
        | none =>
          let rest := loadGo env ensure initOut (a + 1) r
          ⟨rest.result, rest.sleeps, rest.attempts + 1, true⟩
      else ⟨.error .notFound, [], 1, false⟩
    | .badJson =>
      if a = 0 then
        match initOut with
        | some e => ⟨.error e, [], 1, true⟩
        | none =>
          let rest := loadGo env ensure initOut (a + 1) r
          ⟨rest.result, rest.sleeps, rest.attempts + 1, true⟩
      else ⟨.error .documentCorrupt, [], 1, false⟩
    | .ioError =>
      if a < maxRetries - 1 then
        let rest := loadGo env ensure initOut (a + 1) r
        ⟨rest.result, sleepMs a :: rest.sleeps, rest.attempts + 1, rest.initRan⟩
      else ⟨.error .storageError, [], 1, false⟩

/-- load_data / _load_data: run the retry loop from attempt 0 with
`max_retries` iterations. -/
def load_data (env : Nat → ReadOut α) (ensure : α → α) (initOut : Option StoreErr) :
    LoadRes α :=
  loadGo env ensure initOut 0 maxRetries

/-- Filesystem events emitted by the save path, in order: writing the
serialized document into the temp file, flushing it, fsyncing it,
renaming it over the target (os.replace), best-effort removal of the
temp file after a failure, and sleeping between attempts. -/
inductive SaveEv
  | writeTmp
  | flushTmp
  | fsyncTmp
  | renameTmp
  | removeTmp
  | sleep (ms : Nat)
deriving DecidableEq, Repr

/-- Outcome of one attempt of the save loop, as chosen by the I/O
environment: the whole write-flush-fsync-rename body succeeds, or some
step of it raises OSError / IOError, in which case `tmpLeft` says
whether the temp file exists at the moment of cleanup and `removeOk`
whether the best-effort os.remove succeeds. -/
inductive SaveOut
  | succeed
  | fail (tmpLeft : Bool) (removeOk : Bool)
deriving DecidableEq, Repr

/-- Observable outcome of one run of the save loop: result, the full
event trace, the sleeps (in ms, in order), the final target-file state
and whether the temp file still exists at the end. -/
structure SaveRes (α : Type) where
  result : Except StoreErr Unit
  trace : List SaveEv
  sleeps : List Nat
  target : FileState α
  tmpExists : Bool
deriving Repr

/-- The retry loop of save_data (admin_data.py lines 192 to 220) and of
_save_data (searched_usernames.py lines 54 to 73).  A successful
attempt writes the temp file, flushes, fsyncs, then atomically renames
it over the target; a failed attempt removes the temp file when it
exists (best effort: a failing removal is swallowed), and either sleeps
and retries (`attempt < max_retries - 1`) or re-raises the error. -/
def saveGo (env : Nat → SaveOut) (d : α) :
    Nat → Nat → FileState α → Bool → SaveRes α
  | _, 0, tgt, tmp => ⟨.error .exhausted, [], [], tgt, tmp⟩
  | a, r + 1, tgt, _tmp =>
    match env a with
    | .succeed =>
      ⟨.ok (), [.writeTmp, .flushTmp, .fsyncTmp, .renameTmp], [], .stored d, false⟩
    | .fail tmpLeft removeOk =>
      let cleanup : List SaveEv := if tmpLeft then [.removeTmp] else []
      let tmpAfter := tmpLeft && !removeOk
      if a < maxRetries - 1 then
        let rest := saveGo env d (a + 1) r tgt tmpAfter
        ⟨rest.result, cleanup ++ .sleep (sleepMs a) :: rest.trace,
          sleepMs a :: rest.sleeps, rest.target, rest.tmpExists⟩
      else ⟨.error .storageError, cleanup, [], tgt, tmpAfter⟩

/-- save_data / _save_data: run the save retry loop from attempt 0 with
`max_retries` iterations; initially no temp file exists. -/
def save_data (env : Nat → SaveOut) (d : α) (tgt : FileState α) : SaveRes α :=
  saveGo env d 0 maxRetries tgt false

/-- Temp file naming: `temp_file = self.data_file + ".tmp"`. -/
def tempName (path : String) : String := path ++ ".tmp"

/-- Directory part of a path: everything up to and including the last
slash (as a character list). -/
def dirOf (path : String) : List Char :=
  (path.data.reverse.dropWhile (fun c => c ≠ '/')).reverse

theorem dirOf_tempName (p : String) : dirOf (tempName p) = dirOf p := by
  unfold dirOf tempName
  rw [String.data_append, List.reverse_append]
  have hstep : (".tmp".data.reverse ++ p.data.reverse).dropWhile (fun c => c ≠ '/')
      = p.data.reverse.dropWhile (fun c => c ≠ '/') := by
    show List.dropWhile _ ('p' :: 'm' :: 't' :: '.' :: p.data.reverse) = _
    simp [List.dropWhile]
  rw [hstep]

/-! The admin collection (admin_data.py).  Its document is a JSON object
with declared top-level keys users, demo_usernames, valid_utrs and
custom_message; `Option` models presence of a key in the stored object,
and `extra` carries any undeclared top-level keys, which every code path
preserves verbatim. -/

/-- One element of the users array (admin_data.py create_user and the
default data). -/
structure User where
  id : Int
  name : String
  hash_code : String
  balance : Int
  created_at : String
deriving DecidableEq, Repr

/-- The mobile_details object stored with a demo username. -/
structure MobileDetails where
  full_name : String
  father_name : String
  document_number : String
  region : String
  addresses : List String
  phone_numbers : List String
deriving DecidableEq, Repr

/-- One element of the demo_usernames array. -/
structure DemoUsername where
  id : Int
  username : String
  mobile_number : String
  mobile_details : MobileDetails
  active : Bool
  created_at : String
deriving DecidableEq, Repr

/-- One element of the valid_utrs array. -/
structure ValidUtr where
  id : Int
  utr : String
  descr : String
  active : Bool
  created_at : String
deriving DecidableEq, Repr

/-- The admin collection document. -/
structure AdminDoc where
  users : Option (List User)
  demo_usernames : Option (List DemoUsername)
  valid_utrs : Option (List ValidUtr)
  custom_message : Option String
  extra : List (String × String)
deriving DecidableEq, Repr

/-- The default custom message (admin_data.py lines 111, 137, 161). -/
def defaultMessage : String :=
  "No details available in the database, but we are working on it. Your search has been logged."

/-- The in-memory key backfill performed by load_data right after
parsing (admin_data.py lines 157 to 161): every declared key that is
absent is set to its default. -/
def ensureKeys (d : AdminDoc) : AdminDoc :=
  { users := some (d.users.getD [])
    demo_usernames := some (d.demo_usernames.getD [])
    valid_utrs := some (d.valid_utrs.getD [])
    custom_message := some (d.custom_message.getD defaultMessage)
    extra := d.extra }

/-- The default document seeded by init_database when the file does not
exist (admin_data.py lines 34 to 112).  Every datetime.now().isoformat()
call is modelled by the parameter `now`. -/
def adminDefault (now : String) : AdminDoc :=
  { users :=
      some [⟨1, "Admin User", "ADMIN9999RSX", 9999, now⟩,
            ⟨2, "Special User", "SPECIAL9999X", 9999, now⟩]
    demo_usernames :=
      some [⟨1, "riyakhanna1", "7091729147",
             ⟨"👤 Sattar shah", "👨 Ramtula Shah", "🃏 275339966355",
              "🗺️ VODA BHR&JHR;BIHAR JIO;AIRTEL BHR&JHR;BIHAR VODAFONE",
              ["🏘️ S/O Sattar Shah,-,CHHOTI KABRISTAN Bettiah,INDRA CHOWK,Bettiah Bettiah,West Champaran, Bihar,845438",
               "🏘️ choti,CHHOTI KABRISTAN INDRA CHOWK,BETTIAH BETTIAH ward no 14,ward no 14,BETTIAH BETTIAH WEST CHAMPARAN,BETTIAH,WEST CHAMPARAN,BIHAR,845438"],
              ["📞 918207426355", "📞 917903028438", "📞 918864033507",
               "📞 919065717472", "📞 917091729147"]⟩,
             true, now⟩,
            ⟨2, "sr_cheat_hack", "7970421286",
             ⟨"👤 Hari Prasan Ram", "👨 Shiv Kumar Ram", "🃏 661024605582",
              "🗺️ BIHAR JIO;AIRTEL BHR&JHR;JIO BHR&JHR",
              ["🏘️ 22 village bisi kalan dinara district rohtas,Nawanagar PO,buxar,post office-bisi kalan Nawanagar,Nawanagar,Bhojpur,Buxar,Bihar,802129",
               "🏘️ S/O Hari Prasan Ram,village-bisi kalan village-bisi kalandinara district-rohtas Nawanagar,NA,post office-bisi kalan,Nawanagar Nawanagar Buxar,NA,Bihar,802129"],
              ["📞 918607096821", "📞 919113198403", "📞 919693442577",
               "📞 917497099699", "📞 917970421286"]⟩,
             true, now⟩]
    valid_utrs := some [⟨1, "453983442711", "Valid UTR for demo deposits", true, now⟩]
    custom_message := some defaultMessage
    extra := [] }

/-- The key checks of init_database on an existing file (admin_data.py
lines 122 to 138): each declared key that is absent is inserted with its
default and the `updated` flag is set. -/
def initBackfill (d : AdminDoc) : AdminDoc × Bool :=
  let s1 := if d.users = none then ({ d with users := some [] }, true) else (d, false)
  let s2 := if s1.1.demo_usernames = none
    then ({ s1.1 with demo_usernames := some [] }, true) else s1
  let s3 := if s2.1.valid_utrs = none
    then ({ s2.1 with valid_utrs := some [] }, true) else s2
  if s3.1.custom_message = none
    then ({ s3.1 with custom_message := some defaultMessage }, true) else s3

/-! Quiescent model of the admin load and init paths: the filesystem is
threaded through explicitly and every raw I/O call succeeds (OSError
retries are covered by the environment model above), so open-and-parse
is determined by the `FileState`.  load_data and init_database are
mutually recursive in the source (a first-attempt load failure calls
init_database, which on an existing file calls load_data); the fuel
argument models the Python call stack, and running out of fuel is the
RecursionError this mutual recursion produces on a persistently corrupt
file. -/

mutual

/-- Quiescent load_data (admin_data.py lines 143 to 177): attempt `a` of
the retry loop on filesystem `fs`; returns the result and the final
filesystem state. -/
def adminLoadGoQ (now : String) :
    Nat → FileState AdminDoc → Nat → Except StoreErr AdminDoc × FileState AdminDoc
  | 0, fs, _ => (.error .recursionError, fs)
  | f + 1, fs, a =>
    if a < maxRetries then
      match fs with
      | .stored d => (.ok (ensureKeys d), .stored d)
      | .missing =>
        if a = 0 then
          match adminInitQ now f .missing with
          | (.ok _, fs1, _) => adminLoadGoQ now f fs1 (a + 1)
          | (.error e, fs1, _) => (.error e, fs1)
        else (.error .notFound, .missing)
      | .corrupt =>
        if a = 0 then
          match adminInitQ now f .corrupt with
          | (.ok _, fs1, _) => adminLoadGoQ now f fs1 (a + 1)
          | (.error e, fs1, _) => (.error e, fs1)
        else (.error .documentCorrupt, .corrupt)
    else (.error .exhausted, fs)

/-- Quiescent init_database (admin_data.py lines 28 to 141): when the
file does not exist it saves the default document; otherwise it loads,
re-checks the declared keys and saves only when one was absent.  The
Bool of the result tells whether save_data was called. -/
def adminInitQ (now : String) :
    Nat → FileState AdminDoc → Except StoreErr Unit × FileState AdminDoc × Bool
  | 0, fs => (.error .recursionError, fs, false)
  | f + 1, fs =>
    match fs with
    | .missing => (.ok (), .stored (adminDefault now), true)
    | fs =>
      match adminLoadGoQ now f fs 0 with
      | (.ok d, fs1) =>
        let p := initBackfill d
        if p.2 then (.ok (), .stored p.1, true) else (.ok (), fs1, false)
      | (.error e, fs1) => (.error e, fs1, false)

end

/-- Call-stack budget used to run the quiescent model in the theorems
below; any value at least 2 behaves identically on reachable states. -/
def qFuel : Nat := 12

/-- Quiescent load_data from attempt 0. -/
def adminLoadQ (now : String) (fs : FileState AdminDoc) :
    Except StoreErr AdminDoc × FileState AdminDoc :=
  adminLoadGoQ now qFuel fs 0

/-! CRUD methods of AdminDataManager.  Each method is
load_data, mutate the returned document, save_data; in the quiescent
model a successful save_data makes the file `stored` the new document.
The document-level mutation of each method is split out so that the
same definition serves both the store-level operation and the
operation-sequence theorems. -/

/-- Python `max([...ids...], default=0)`. -/
def maxIds : List Int → Int
  | [] => 0
  | x :: xs => xs.foldl max x

/-- Ids of a users array. -/
def userIds (l : List User) : List Int := l.map User.id

/-- Ids of a demo_usernames array. -/
def demoIds (l : List DemoUsername) : List Int := l.map DemoUsername.id

/-- Ids of a valid_utrs array. -/
def utrIds (l : List ValidUtr) : List Int := l.map ValidUtr.id

/-- The user record built by create_user (admin_data.py lines 235 to
242); the unique-hash-code generation loop is modelled by the parameter
`hash`, the timestamp by `now`. -/
def newUser (name hash now : String) (d : AdminDoc) : User :=
  ⟨maxIds (userIds (d.users.getD [])) + 1, name, hash, 0, now⟩

/-- Document mutation of create_user: append the new user. -/
def createUserDoc (name hash now : String) (d : AdminDoc) : User × AdminDoc :=
  let u := newUser name hash now d
  (u, { d with users := some (d.users.getD [] ++ [u]) })

/-- create_user (admin_data.py lines 225 to 246). -/
def create_user (name hash now : String) (fs : FileState AdminDoc) :
    Except StoreErr (User × FileState AdminDoc) :=
  match adminLoadQ now fs with
  | (.ok d, _) =>
    let p := createUserDoc name hash now d
    .ok (p.1, .stored p.2)
  | (.error e, _) => .error e

/-- Balance update of the first user whose hash_code matches, then stop
(the loop of admin_data.py lines 264 to 267 breaks after the first
match). -/
def setFirstBalance (h : String) (b : Int) : List User → List User
  | [] => []
  | u :: us =>
    if u.hash_code = h then { u with balance := b } :: us
    else u :: setFirstBalance h b us

/-- Document mutation of update_user_balance. -/
def updateBalanceDoc (h : String) (b : Int) (d : AdminDoc) : AdminDoc :=
  { d with users := some (setFirstBalance h b (d.users.getD [])) }

/-- update_user_balance (admin_data.py lines 261 to 269): always saves
the (possibly unchanged) document and returns True. -/
def update_user_balance (now : String) (fs : FileState AdminDoc) (h : String) (b : Int) :
    Except StoreErr (Bool × FileState AdminDoc) :=
  match adminLoadQ now fs with
  | (.ok d, _) => .ok (true, .stored (updateBalanceDoc h b d))
  | (.error e, _) => .error e

/-- Document mutation of delete_user (admin_data.py line 274). -/
def deleteUserDoc (uid : Int) (d : AdminDoc) : AdminDoc :=
  { d with users := some ((d.users.getD []).filter (fun u => u.id != uid)) }

/-- delete_user (admin_data.py lines 271 to 275). -/
def delete_user (now : String) (fs : FileState AdminDoc) (uid : Int) :
    Except StoreErr (FileState AdminDoc) :=
  match adminLoadQ now fs with
  | (.ok d, _) => .ok (.stored (deleteUserDoc uid d))
  | (.error e, _) => .error e

/-- The demo-username record built by add_username (admin_data.py lines
285 to 294). -/
def newDemoUsername (un mo : String) (de : MobileDetails) (now : String)
    (d : AdminDoc) : DemoUsername :=
  ⟨maxIds (demoIds (d.demo_usernames.getD [])) + 1, un, mo, de, true, now⟩

/-- Document mutation of add_username. -/
def addUsernameDoc (un mo : String) (de : MobileDetails) (now : String)
    (d : AdminDoc) : DemoUsername × AdminDoc :=
  let x := newDemoUsername un mo de now d
  (x, { d with demo_usernames := some (d.demo_usernames.getD [] ++ [x]) })

/-- add_username (admin_data.py lines 282 to 297). -/
def add_username (un mo : String) (de : MobileDetails) (now : String)
    (fs : FileState AdminDoc) :
    Except StoreErr (DemoUsername × FileState AdminDoc) :=
  match adminLoadQ now fs with
  | (.ok d, _) =>
    let p := addUsernameDoc un mo de now d
    .ok (p.1, .stored p.2)
  | (.error e, _) => .error e

/-- Field update of the first demo username whose id matches, then stop
(the loop of admin_data.py lines 302 to 307 breaks after the first
match). -/
def setUsernameFields (uid : Int) (un mo : String) (de : MobileDetails) :
    List DemoUsername → List DemoUsername
  | [] => []
  | x :: xs =>
    if x.id = uid then
      { x with username := un, mobile_number := mo, mobile_details := de } :: xs
    else x :: setUsernameFields uid un mo de xs

/-- Document mutation of update_username. -/
def updateUsernameDoc (uid : Int) (un mo : String) (de : MobileDetails)
    (d : AdminDoc) : AdminDoc :=
  { d with demo_usernames := some (setUsernameFields uid un mo de (d.demo_usernames.getD [])) }

/-- Document mutation of delete_username (admin_data.py line 313). -/
def deleteUsernameDoc (uid : Int) (d : AdminDoc) : AdminDoc :=
  { d with
    demo_usernames := some ((d.demo_usernames.getD []).filter (fun x => x.id != uid)) }

/-- The UTR record built by add_utr (admin_data.py lines 325 to 332). -/
def newUtr (utr de now : String) (d : AdminDoc) : ValidUtr :=
  ⟨maxIds (utrIds (d.valid_utrs.getD [])) + 1, utr, de, true, now⟩

/-- Document mutation of add_utr. -/
def addUtrDoc (utr de now : String) (d : AdminDoc) : ValidUtr × AdminDoc :=
  let x := newUtr utr de now d
  (x, { d with valid_utrs := some (d.valid_utrs.getD [] ++ [x]) })

/-- add_utr (admin_data.py lines 322 to 335). -/
def add_utr (utr de now : String) (fs : FileState AdminDoc) :
    Except StoreErr (ValidUtr × FileState AdminDoc) :=
  match adminLoadQ now fs with
  | (.ok d, _) =>
    let p := addUtrDoc utr de now d
    .ok (p.1, .stored p.2)
  | (.error e, _) => .error e

/-- Document mutation of delete_utr (admin_data.py line 340). -/
def deleteUtrDoc (uid : Int) (d : AdminDoc) : AdminDoc :=
  { d with valid_utrs := some ((d.valid_utrs.getD []).filter (fun x => x.id != uid)) }

/-- Document mutation of update_custom_message (admin_data.py lines 359
to 364): `message.strip()` is String.trim. -/
def updateMessageDoc (msg : String) (d : AdminDoc) : AdminDoc :=
  { d with custom_message := some msg.trim }

/-- The mutating methods of AdminDataManager, as a syntax-free operation
datatype for sequential-execution theorems. -/
inductive AdminOp
  | createUser (name hash now : String)
  | addUsername (un mo : String) (de : MobileDetails) (now : String)
  | addUtr (utr de now : String)
  | deleteUser (uid : Int)
  | deleteUsername (uid : Int)
  | deleteUtr (uid : Int)
  | updateBalance (h : String) (b : Int)
  | updateUsername (uid : Int) (un mo : String) (de : MobileDetails)
  | updateMessage (msg : String)

/-- Effect of one sequentially executed method on the stored document:
each method loads (which backfills the declared keys in memory), applies
its mutation and saves the result. -/
def docApply (op : AdminOp) (d : AdminDoc) : AdminDoc :=
  match op with
  | .createUser name hash now => (createUserDoc name hash now (ensureKeys d)).2
  | .addUsername un mo de now => (addUsernameDoc un mo de now (ensureKeys d)).2
  | .addUtr utr de now => (addUtrDoc utr de now (ensureKeys d)).2
  | .deleteUser uid => deleteUserDoc uid (ensureKeys d)
  | .deleteUsername uid => deleteUsernameDoc uid (ensureKeys d)
  | .deleteUtr uid => deleteUtrDoc uid (ensureKeys d)
  | .updateBalance h b => updateBalanceDoc h b (ensureKeys d)
  | .updateUsername uid un mo de => updateUsernameDoc uid un mo de (ensureKeys d)
  | .updateMessage msg => updateMessageDoc msg (ensureKeys d)

/-- Stored document after a sequence of sequentially executed methods. -/
def runOps (ops : List AdminOp) (d : AdminDoc) : AdminDoc :=
  ops.foldl (fun d op => docApply op d) d

/-! The search-log collection (searched_usernames.py).  Its document has
the single declared key searched_logs; a log entry is built as a dict
literal in add_searched_username, modelled as an association list so
that the set of keys of an entry is observable. -/

/-- One search-log entry: the dict literal of searched_usernames.py
lines 79 to 83, as an association list of string keys and values. -/
abbrev LogEntry := List (String × String)

/-- The search-log collection document. -/
structure SearchDoc where
  searched_logs : Option (List LogEntry)
  extra : List (String × String)
deriving DecidableEq, Repr

/-- The in-memory key backfill of _load_data (searched_usernames.py
lines 33 to 34). -/
def ensureLogs (d : SearchDoc) : SearchDoc :=
  { d with searched_logs := some (d.searched_logs.getD []) }

/-- The default document of init_database (searched_usernames.py line
20). -/
def searchedDefault : SearchDoc := ⟨some [], []⟩

/-- Quiescent init_database (searched_usernames.py lines 17 to 21): it
saves the default document only when the file does not exist; the Bool
tells whether _save_data was called. -/
def searchedInitQ (fs : FileState SearchDoc) : FileState SearchDoc × Bool :=
  match fs with
  | .missing => (.stored searchedDefault, true)
  | fs => (fs, false)

/-- Quiescent _load_data (searched_usernames.py lines 23 to 46):
attempt `a` of the retry loop with `r` iterations left; init_database
here never calls back into _load_data, so no fuel is needed. -/
def searchedLoadGoQ :
    Nat → Nat → FileState SearchDoc → Except StoreErr SearchDoc × FileState SearchDoc
  | _, 0, fs => (.error .exhausted, fs)
  | a, r + 1, fs =>
    match fs with
    | .stored d => (.ok (ensureLogs d), .stored d)
    | .missing =>
      if a = 0 then searchedLoadGoQ (a + 1) r (searchedInitQ .missing).1
      else (.error .notFound, .missing)
    | .corrupt =>
      if a = 0 then searchedLoadGoQ (a + 1) r (searchedInitQ .corrupt).1
      else (.error .documentCorrupt, .corrupt)

/-- Quiescent _load_data from attempt 0. -/
def searchedLoadQ (fs : FileState SearchDoc) :
    Except StoreErr SearchDoc × FileState SearchDoc :=
  searchedLoadGoQ 0 maxRetries fs

/-- add_searched_username (searched_usernames.py lines 76 to 85):
appends a dict with keys username (stripped), user_hash and timestamp —
and no id — to searched_logs, then saves. -/
def add_searched_username (username user_hash now : String)
    (fs : FileState SearchDoc) : Except StoreErr (FileState SearchDoc) :=
  match searchedLoadQ fs with
  | (.ok d, _) =>
    let entry : LogEntry :=
      [("username", username.trim), ("user_hash", user_hash), ("timestamp", now)]
    .ok (.stored { d with searched_logs := some (d.searched_logs.getD [] ++ [entry]) })
  | (.error e, _) => .error e

/-! Concurrency model for the atomicity property.  Every write() body
(temp-file creation, serialization, fsync, rename) and every read()
body runs while holding the managers in-process threading.Lock
(admin_data.py lines 194 and 150, searched_usernames.py lines 56 and
30), so in the single-process deployment the spec describes, operation
bodies never interleave; a history is therefore a sequence of whole
operations.  Inside one write the file steps are still modelled
individually, because only the rename step may touch the target: a
rename that happened before the document was fully written to the temp
file would publish corrupt content, and the model shows the write path
never does that. -/

/-- File-level steps of the write path. -/
inductive WStep (α : Type)
  | openT
  | writeT (d : α)
  | syncT
  | renameT

/-- Content of the temp file: freshly opened and truncated, or holding
one fully serialized document. -/
inductive TmpFile (α : Type)
  | emptyF
  | fullF (d : α)

/-- Shared state: the target collection file and the temp file. -/
structure StoreSt (α : Type) where
  target : FileState α
  tmp : Option (TmpFile α)

/-- Semantics of one file step.  Renaming a fully written temp file
publishes the document atomically; renaming a merely opened temp file
would publish unparseable (corrupt) content. -/
def wstep : WStep α → StoreSt α → StoreSt α
  | .openT, s => { s with tmp := some .emptyF }
  | .writeT d, s => { s with tmp := s.tmp.map (fun _ => .fullF d) }
  | .syncT, s => s
  | .renameT, s =>
    match s.tmp with
    | some (.fullF d) => ⟨.stored d, none⟩
    | some .emptyF => ⟨.corrupt, none⟩
    | none => s

/-- The steps one write() performs, in source order: open the temp
file, serialize the document into it, flush and fsync, rename. -/
def writeSteps (d : α) : List (WStep α) := [.openT, .writeT d, .syncT, .renameT]

/-- One lock-serialized store operation. -/
inductive HistOp (α : Type)
  | doWrite (d : α)
  | doRead

/-- Run a history: each write executes its file steps back to back
(the in-process lock is held for the whole body), each read records the
target state it observes. -/
def runHist : List (HistOp α) → StoreSt α → List (FileState α) × StoreSt α
  | [], s => ([], s)
  | .doWrite d :: rest, s =>
    runHist rest ((writeSteps d).foldl (fun st e => wstep e st) s)
  | .doRead :: rest, s =>
    let p := runHist rest s
    (s.target :: p.1, p.2)

theorem writeSteps_run (d : α) (s : StoreSt α) :
    (writeSteps d).foldl (fun st e => wstep e st) s = ⟨.stored d, none⟩ := rfl

theorem runHist_reads (h : List (HistOp α)) (s : StoreSt α)
    (obs : FileState α) (hobs : obs ∈ (runHist h s).1) :
    obs = s.target ∨ ∃ dd, HistOp.doWrite dd ∈ h ∧ obs = .stored dd := by
  induction h generalizing s with
  | nil => cases hobs
  | cons op rest ih =>
    cases op with
    | doWrite d =>
      rcases ih ⟨.stored d, none⟩ hobs with h1 | ⟨dd, hdd, hob⟩
      · exact Or.inr ⟨d, by simp, h1⟩
      · exact Or.inr ⟨dd, by simp [hdd], hob⟩
    | doRead =>
      rcases List.mem_cons.1 hobs with h1 | h1
      · exact Or.inl h1
      · rcases ih s h1 with h2 | ⟨dd, hdd, hob⟩
        · exact Or.inl h2
        · exact Or.inr ⟨dd, by simp [hdd], hob⟩

/-! Helper lemmas about identifier assignment. -/

theorem le_foldl_max (b : Int) (l : List Int) : b ≤ l.foldl max b := by
  induction l generalizing b with
  | nil => exact le_refl b
  | cons y ys ih => exact le_trans (le_max_left b y) (ih (max b y))

theorem mem_le_foldl_max (b : Int) {x : Int} {l : List Int} (hx : x ∈ l) :
    x ≤ l.foldl max b := by
  induction l generalizing b with
  | nil => cases hx
  | cons y ys ih =>
    rw [List.foldl_cons]
    rcases List.mem_cons.1 hx with h1 | h1
    · subst h1
      exact le_trans (le_max_right b x) (le_foldl_max (max b x) ys)
    · exact ih (max b y) h1

theorem mem_le_maxIds {x : Int} {l : List Int} (hx : x ∈ l) : x ≤ maxIds l := by
  cases l with
  | nil => cases hx
  | cons y ys =>
    rcases List.mem_cons.1 hx with h1 | h1
    · exact h1 ▸ le_foldl_max y ys
    · exact mem_le_foldl_max y h1

/-- Invariant on one id list: no duplicates and every id positive. -/
abbrev uniquePos (l : List Int) : Prop := l.Nodup ∧ ∀ i ∈ l, 0 < i

theorem uniquePos_append_next {l : List Int} (h : uniquePos l) :
    uniquePos (l ++ [maxIds l + 1]) := by
  have hlt : ∀ x ∈ l, x < maxIds l + 1 := fun x hx =>
    lt_of_le_of_lt (mem_le_maxIds hx) (lt_add_one _)
  constructor
  · refine h.1.append (List.nodup_singleton _) ?_
    intro x hx hx1
    rcases List.mem_singleton.1 hx1 with rfl
    exact absurd rfl (ne_of_lt (hlt _ hx))
  · intro i hi
    rcases List.mem_append.1 hi with h1 | h1
    · exact h.2 i h1
    · rcases List.mem_singleton.1 h1 with rfl
      rcases l with _ | ⟨y, ys⟩
      · simp [maxIds]
      · have : 0 < y := h.2 y (by simp)
        have hy : y ≤ maxIds (y :: ys) := mem_le_maxIds (by simp)
        omega

theorem uniquePos_sublist {l m : List Int} (hs : List.Sublist l m) (h : uniquePos m) :
    uniquePos l :=
  ⟨h.1.sublist hs, fun i hi => h.2 i (hs.subset hi)⟩

/-- A document that already carries every declared top-level key. -/
abbrev hasAllKeys (d : AdminDoc) : Prop :=
  d.users.isSome = true ∧ d.demo_usernames.isSome = true ∧
  d.valid_utrs.isSome = true ∧ d.custom_message.isSome = true

theorem ensureKeys_eq_self {d : AdminDoc} (h : hasAllKeys d) : ensureKeys d = d := by
  obtain ⟨us, dm, vu, cm, ex⟩ := d
  rcases us with _ | u <;> rcases dm with _ | m <;> rcases vu with _ | v <;>
    rcases cm with _ | c <;> simp_all [hasAllKeys, ensureKeys]

/-! Claim theorems. -/

/-- Claim C1 (confirmed): a successful write performs exactly the
sequence: serialize the document into the temp file (named by appending
.tmp to the target path, hence in the same directory), flush and fsync
it, then atomically rename it over the target, after which the target
holds exactly the written document and the temp file is gone.  Stated
for a write whose body does not hit a transient I/O error (`env 0 =
succeed`); retried attempts repeat the identical sequence. -/
theorem write_path_success_sequence {α : Type} (env : Nat → SaveOut) (d : α)
    (tgt : FileState α) (h : env 0 = .succeed) :
    (save_data env d tgt).result = .ok () ∧
    (save_data env d tgt).trace = [.writeTmp, .flushTmp, .fsyncTmp, .renameTmp] ∧
    (save_data env d tgt).target = .stored d ∧
    (save_data env d tgt).tmpExists = false ∧
    ∀ p : String, dirOf (tempName p) = dirOf p := by
  refine ⟨?_, ?_, ?_, ?_, fun p => dirOf_tempName p⟩ <;>
    simp [save_data, saveGo, maxRetries, h]

theorem write_path_success_sequence_witness :
    (save_data (fun _ => .succeed) (0 : Nat) .missing).trace
      = [.writeTmp, .flushTmp, .fsyncTmp, .renameTmp] :=
  (write_path_success_sequence (fun _ => .succeed) 0 .missing rfl).2.1

/-- Claim C2 (confirmed): in a history of lock-serialized store
operations starting from the initial default document, every read
observes a target file holding exactly one complete written document
(some prior write argument or the initial default) and never corrupt or
mixed content.  The in-process threading.Lock held around every whole
read and write body justifies the sequential interleaving of operation
bodies; the rename step is the only step that touches the target. -/
theorem atomic_reads {α : Type} (h : List (HistOp α)) (d0 : α)
    (obs : FileState α) (hobs : obs ∈ (runHist h ⟨.stored d0, none⟩).1) :
    obs ≠ .corrupt ∧ ∃ dd, obs = .stored dd ∧ (dd = d0 ∨ HistOp.doWrite dd ∈ h) := by
  rcases runHist_reads h ⟨.stored d0, none⟩ obs hobs with h1 | ⟨dd, hdd, hob⟩
  · exact ⟨by simp [h1], d0, h1, Or.inl rfl⟩
  · exact ⟨by simp [hob], dd, hob, Or.inr hdd⟩

theorem atomic_reads_witness :
    FileState.stored 1 ≠ FileState.corrupt ∧
    ∃ dd, FileState.stored 1 = FileState.stored dd ∧
      (dd = 0 ∨ HistOp.doWrite dd ∈ [HistOp.doWrite 1, HistOp.doRead]) :=
  atomic_reads [HistOp.doWrite 1, HistOp.doRead] 0 (.stored 1) (by decide)

/-- Claim C6 (confirmed): when every attempt of the write path hits an
I/O failure, the loop removes the temp file whenever it exists
(best-effort: a failing removal is ignored), sleeps the linear backoff
100, 200, 300, 400 ms between its 5 attempts, leaves the target file
untouched, and fails by re-raising the error (StorageError), never
swallowing it. -/
theorem write_failure_path {α : Type} (env : Nat → SaveOut) (tl rm : Nat → Bool)
    (d : α) (tgt : FileState α)
    (h : ∀ a, a < maxRetries → env a = .fail (tl a) (rm a)) :
    (save_data env d tgt).result = .error .storageError ∧
    (save_data env d tgt).sleeps = [100, 200, 300, 400] ∧
    (save_data env d tgt).target = tgt ∧
    (save_data env d tgt).trace =
      (if tl 0 then [.removeTmp] else []) ++ .sleep 100 ::
      ((if tl 1 then [.removeTmp] else []) ++ .sleep 200 ::
       ((if tl 2 then [.removeTmp] else []) ++ .sleep 300 ::
        ((if tl 3 then [.removeTmp] else []) ++ .sleep 400 ::
         (if tl 4 then [.removeTmp] else [])))) ∧
    (save_data env d tgt).tmpExists = (tl 4 && !rm 4) := by
  have h0 := h 0 (by norm_num [maxRetries])
  have h1 := h 1 (by norm_num [maxRetries])
  have h2 := h 2 (by norm_num [maxRetries])
  have h3 := h 3 (by norm_num [maxRetries])
  have h4 := h 4 (by norm_num [maxRetries])
  refine ⟨?_, ?_, ?_, ?_, ?_⟩ <;>
    simp [save_data, saveGo, maxRetries, sleepMs, retryDelayMs, h0, h1, h2, h3, h4]

theorem write_failure_path_witness :
    (save_data (fun _ => .fail true true) (0 : Nat) .missing).result
        = .error .storageError ∧
    (save_data (fun _ => .fail true true) (0 : Nat) .missing).sleeps
        = [100, 200, 300, 400] :=
  ⟨(write_failure_path _ (fun _ => true) (fun _ => true) 0 .missing fun _ _ => rfl).1,
   (write_failure_path _ (fun _ => true) (fun _ => true) 0 .missing fun _ _ => rfl).2.1⟩

/-- Claim C3 (counterexample): with the file unparseable at every
attempt, the load loop surfaces DocumentCorrupt after only 2
open-and-parse attempts and with no backoff sleep at all — the
non-first parse failure re-raises immediately instead of retrying up to
the 5-attempt budget with linear backoff, contradicting the claim.  The
backoff loop is reserved for OSError / IOError. -/
theorem corrupt_retry_counterexample :
    (load_data (α := SearchDoc) (fun _ => .badJson) ensureLogs none).result
        = .error .documentCorrupt ∧
    (load_data (α := SearchDoc) (fun _ => .badJson) ensureLogs none).sleeps = [] ∧
    (load_data (α := SearchDoc) (fun _ => .badJson) ensureLogs none).attempts = 2 ∧
    ¬ (load_data (α := SearchDoc) (fun _ => .badJson) ensureLogs none).attempts
        = maxRetries :=
  ⟨rfl, rfl, rfl, by decide⟩

/-- Claim C3 (amended): a parse failure on a load attempt that is not
the first surfaces DocumentCorrupt immediately — no further retries and
no backoff sleeps; defaults are not re-seeded past the first attempt
(init_database runs only on the first failure). -/
theorem corrupt_nonfirst_fails_immediately (env : Nat → ReadOut SearchDoc)
    (h0 : env 0 = .badJson) (h1 : env 1 = .badJson) :
    load_data env ensureLogs none = ⟨.error .documentCorrupt, [], 2, true⟩ := by
  simp [load_data, loadGo, maxRetries, h0, h1]

theorem corrupt_nonfirst_fails_immediately_witness :
    load_data (α := SearchDoc) (fun _ => .badJson) ensureLogs none
      = ⟨.error .documentCorrupt, [], 2, true⟩ :=
  corrupt_nonfirst_fails_immediately (fun _ => .badJson) rfl rfl

/-- Claim C4 (counterexample): a stored document missing the
valid_utrs key is returned by read with the key backfilled to its
default, but the file afterwards still holds the old document with the
key absent — the backfilled version is not persisted by read. -/
theorem backfill_not_persisted_counterexample :
    (adminLoadQ "t" (.stored ⟨some [], some [], none, some defaultMessage, []⟩)).1
        = .ok ⟨some [], some [], some [], some defaultMessage, []⟩ ∧
    (adminLoadQ "t" (.stored ⟨some [], some [], none, some defaultMessage, []⟩)).2
        = .stored ⟨some [], some [], none, some defaultMessage, []⟩ ∧
    (⟨some [], some [], none, some defaultMessage, []⟩ : AdminDoc)
        ≠ ⟨some [], some [], some [], some defaultMessage, []⟩ :=
  ⟨rfl, rfl, by decide⟩

/-- Claim C4 (amended): for a stored document missing a declared
top-level key, read returns the document with every missing key set to
its declared default (empty array, or the default custom message), but
the on-disk file is left unchanged; the backfill happens in memory
only and is not persisted.  Stated with the valid_utrs key as the
missing one; the equation for ensureKeys covers the other keys. -/
theorem read_backfills_in_memory_only (now : String) (d : AdminDoc) (s : SearchDoc)
    (h : d.valid_utrs = none) :
    adminLoadQ now (.stored d) = (.ok (ensureKeys d), .stored d) ∧
    (ensureKeys d).valid_utrs = some [] ∧
    (ensureKeys d).users = some (d.users.getD []) ∧
    (ensureKeys d).demo_usernames = some (d.demo_usernames.getD []) ∧
    (ensureKeys d).custom_message = some (d.custom_message.getD defaultMessage) ∧
    searchedLoadQ (.stored s) = (.ok (ensureLogs s), .stored s) := by
  refine ⟨rfl, ?_, rfl, rfl, rfl, rfl⟩
  simp [ensureKeys, h]

theorem read_backfills_in_memory_only_witness :
    adminLoadQ "t" (.stored ⟨some [], some [], none, some "m", []⟩)
      = (.ok (ensureKeys ⟨some [], some [], none, some "m", []⟩),
         .stored ⟨some [], some [], none, some "m", []⟩) :=
  (read_backfills_in_memory_only "t" ⟨some [], some [], none, some "m", []⟩
    ⟨some [], []⟩ rfl).1

/-- Claim C5 (counterexample): with an existing but unparseable file,
the very first load attempt does call init_database, but init_database
does not re-seed the defaults (the file exists), and read fails instead
of returning the default document: the log collection raises
DocumentCorrupt on the second attempt, and the admin collection ends in
the RecursionError of the load-init mutual recursion. -/
theorem corrupt_first_attempt_not_healed :
    searchedLoadQ .corrupt = (.error .documentCorrupt, .corrupt) ∧
    searchedInitQ .corrupt = (.corrupt, false) ∧
    (adminLoadQ "2024-01-01T00:00:00" .corrupt).1 = .error .recursionError :=
  ⟨rfl, rfl, rfl⟩

/-- Claim C5 (amended): when the very first load attempt fails because
the file is missing, init_database re-seeds the defaults and read
returns the default document with no error; when the file exists but
is unparseable, init_database is re-run but does not re-seed, and read
fails (DocumentCorrupt for the log collection, RecursionError for the
admin collection). -/
theorem first_attempt_autoheal (now : String) :
    adminLoadQ now .missing = (.ok (adminDefault now), .stored (adminDefault now)) ∧
    searchedLoadQ .missing = (.ok searchedDefault, .stored searchedDefault) ∧
    searchedLoadQ .corrupt = (.error .documentCorrupt, .corrupt) ∧
    adminLoadQ now .corrupt = (.error .recursionError, .corrupt) :=
  ⟨rfl, rfl, rfl, rfl⟩

/-- Claim C7 (confirmed): for a document carrying all declared
top-level keys, a successful write leaves the target file holding
exactly that document; re-running initialization (the restart path of
the manager constructor) leaves the file unchanged, and a subsequent
read returns a document equal to the one written. -/
theorem write_restart_read_roundtrip (env : Nat → SaveOut) (now now2 : String)
    (d : AdminDoc) (tgt : FileState AdminDoc)
    (henv : env 0 = .succeed) (hkeys : hasAllKeys d) :
    (save_data env d tgt).result = .ok () ∧
    (save_data env d tgt).target = .stored d ∧
    adminInitQ now2 qFuel (.stored d) = (.ok (), .stored d, false) ∧
    adminLoadQ now (.stored d) = (.ok d, .stored d) := by
  refine ⟨?_, ?_, rfl, ?_⟩
  · simp [save_data, saveGo, maxRetries, henv]
  · simp [save_data, saveGo, maxRetries, henv]
  · rw [show adminLoadQ now (.stored d) = (.ok (ensureKeys d), .stored d) from rfl,
      ensureKeys_eq_self hkeys]

theorem write_restart_read_roundtrip_witness :
    adminLoadQ "t" (.stored ⟨some [], some [], some [], some "m", []⟩)
      = (.ok ⟨some [], some [], some [], some "m", []⟩,
         .stored ⟨some [], some [], some [], some "m", []⟩) :=
  (write_restart_read_roundtrip (fun _ => .succeed) "t" "t2"
    ⟨some [], some [], some [], some "m", []⟩ .missing rfl (by decide)).2.2.2

/-- Claim C8 (confirmed): initialization on an existing parseable file
never rewrites it (load_data backfills the declared keys in memory
before init_database re-checks them, so its `updated` flag stays
false), hence calling initialization twice in a row — on an existing
file or after the first call created the file — leaves the file
byte-for-byte unchanged, and a persisted modified copy can only ever
happen when a declared key was missing (in fact it never happens). -/
theorem init_twice_idempotent (now now2 : String) (d : AdminDoc) (s : SearchDoc) :
    adminInitQ now qFuel (.stored d) = (.ok (), .stored d, false) ∧
    adminInitQ now qFuel .missing = (.ok (), .stored (adminDefault now), true) ∧
    adminInitQ now2 qFuel (.stored (adminDefault now))
        = (.ok (), .stored (adminDefault now), false) ∧
    searchedInitQ (.stored s) = (.stored s, false) ∧
    searchedInitQ .missing = (.stored searchedDefault, true) ∧
    searchedInitQ (.stored searchedDefault) = (.stored searchedDefault, false) :=
  ⟨rfl, rfl, rfl, rfl, rfl, rfl⟩

/-! Identifier invariant machinery for claim C9. -/

/-- Invariant: the three id-carrying arrays of the admin document all
have unique positive ids. -/
abbrev adminIdsOK (d : AdminDoc) : Prop :=
  uniquePos (userIds (d.users.getD [])) ∧
  uniquePos (demoIds (d.demo_usernames.getD [])) ∧
  uniquePos (utrIds (d.valid_utrs.getD []))

theorem setFirstBalance_ids (h : String) (b : Int) (l : List User) :
    userIds (setFirstBalance h b l) = userIds l := by
  induction l with
  | nil => rfl
  | cons u us ih =>
    by_cases hc : u.hash_code = h
    · simp [setFirstBalance, hc, userIds]
    · simp only [setFirstBalance, hc, if_false, userIds, List.map_cons]
      exact congrArg _ ih

theorem setUsernameFields_ids (uid : Int) (un mo : String) (de : MobileDetails)
    (l : List DemoUsername) :
    demoIds (setUsernameFields uid un mo de l) = demoIds l := by
  induction l with
  | nil => rfl
  | cons x xs ih =>
    by_cases hc : x.id = uid
    · simp [setUsernameFields, hc, demoIds]
    · simp only [setUsernameFields, hc, if_false, demoIds, List.map_cons]
      exact congrArg _ ih

theorem adminIdsOK_docApply (op : AdminOp) {d : AdminDoc} (h : adminIdsOK d) :
    adminIdsOK (docApply op d) := by
  have h1 : adminIdsOK (ensureKeys d) := h
  cases op with
  | createUser name hash now =>
    refine ⟨?_, h1.2.1, h1.2.2⟩
    show uniquePos (userIds ((ensureKeys d).users.getD []
      ++ [newUser name hash now (ensureKeys d)]))
    rw [show userIds ((ensureKeys d).users.getD []
        ++ [newUser name hash now (ensureKeys d)])
      = userIds ((ensureKeys d).users.getD [])
        ++ [maxIds (userIds ((ensureKeys d).users.getD [])) + 1] by
        simp [userIds, newUser]]
    exact uniquePos_append_next h1.1
  | addUsername un mo de now =>
    refine ⟨h1.1, ?_, h1.2.2⟩
    show uniquePos (demoIds ((ensureKeys d).demo_usernames.getD []
      ++ [newDemoUsername un mo de now (ensureKeys d)]))
    rw [show demoIds ((ensureKeys d).demo_usernames.getD []
        ++ [newDemoUsername un mo de now (ensureKeys d)])
      = demoIds ((ensureKeys d).demo_usernames.getD [])
        ++ [maxIds (demoIds ((ensureKeys d).demo_usernames.getD [])) + 1] by
        simp [demoIds, newDemoUsername]]
    exact uniquePos_append_next h1.2.1
  | addUtr utr de now =>
    refine ⟨h1.1, h1.2.1, ?_⟩
    show uniquePos (utrIds ((ensureKeys d).valid_utrs.getD []
      ++ [newUtr utr de now (ensureKeys d)]))
    rw [show utrIds ((ensureKeys d).valid_utrs.getD []
        ++ [newUtr utr de now (ensureKeys d)])
      = utrIds ((ensureKeys d).valid_utrs.getD [])
        ++ [maxIds (utrIds ((ensureKeys d).valid_utrs.getD [])) + 1] by
        simp [utrIds, newUtr]]
    exact uniquePos_append_next h1.2.2
  | deleteUser uid =>
    exact ⟨uniquePos_sublist (List.Sublist.map User.id (List.filter_sublist _)) h1.1,
      h1.2.1, h1.2.2⟩
  | deleteUsername uid =>
    exact ⟨h1.1,
      uniquePos_sublist (List.Sublist.map DemoUsername.id (List.filter_sublist _)) h1.2.1,
      h1.2.2⟩
  | deleteUtr uid =>
    exact ⟨h1.1, h1.2.1,
      uniquePos_sublist (List.Sublist.map ValidUtr.id (List.filter_sublist _)) h1.2.2⟩
  | updateBalance hs b =>
    refine ⟨?_, h1.2.1, h1.2.2⟩
    show uniquePos (userIds (setFirstBalance hs b ((ensureKeys d).users.getD [])))
    rw [setFirstBalance_ids]
    exact h1.1
  | updateUsername uid un mo de =>
    refine ⟨h1.1, ?_, h1.2.2⟩
    show uniquePos (demoIds (setUsernameFields uid un mo de
      ((ensureKeys d).demo_usernames.getD [])))
    rw [setUsernameFields_ids]
    exact h1.2.1
  | updateMessage msg => exact h1

theorem adminIdsOK_runOps (ops : List AdminOp) {d : AdminDoc} (h : adminIdsOK d) :
    adminIdsOK (runOps ops d) := by
  induction ops generalizing d with
  | nil => exact h
  | cons op rest ih => exact ih (adminIdsOK_docApply op h)

/-- Claim C9 (counterexample): the search-log collection is
array-valued, yet its append operation assigns no identifier at all —
the appended entry has exactly the keys username, user_hash and
timestamp, no id. -/
theorem log_entries_have_no_id :
    add_searched_username "alice" "HASH" "t" (.stored searchedDefault)
      = .ok (.stored ⟨some [[("username", "alice".trim), ("user_hash", "HASH"),
          ("timestamp", "t")]], []⟩) ∧
    "id" ∉ (([("username", "alice".trim), ("user_hash", "HASH"), ("timestamp", "t")] :
        LogEntry).map Prod.fst) :=
  ⟨rfl, by decide⟩

/-- Claim C9 (amended): each create or append operation on the users,
demo_usernames and valid_utrs arrays assigns the new entity the id
max(existing ids) + 1, and any sequence of sequentially executed
mutating operations preserves uniqueness and positivity of the ids in
each of those arrays; search-log entries carry no identifier. -/
theorem ids_max_plus_one_and_unique (ops : List AdminOp) (d : AdminDoc)
    (name hash un mo utr de now : String) (md : MobileDetails)
    (h : adminIdsOK d) :
    (newUser name hash now d).id = maxIds (userIds (d.users.getD [])) + 1 ∧
    (newDemoUsername un mo md now d).id
        = maxIds (demoIds (d.demo_usernames.getD [])) + 1 ∧
    (newUtr utr de now d).id = maxIds (utrIds (d.valid_utrs.getD [])) + 1 ∧
    adminIdsOK (runOps ops d) :=
  ⟨rfl, rfl, rfl, adminIdsOK_runOps ops h⟩

theorem ids_max_plus_one_and_unique_witness :
    adminIdsOK (runOps
      [.createUser "a" "HASHCODE0001" "t", .addUtr "453983442711" "de" "t",
       .deleteUser 1, .updateBalance "HASHCODE0001" 7]
      ⟨some [], some [], some [], some "m", []⟩) :=
  (ids_max_plus_one_and_unique
    [.createUser "a" "HASHCODE0001" "t", .addUtr "453983442711" "de" "t",
     .deleteUser 1, .updateBalance "HASHCODE0001" 7]
    ⟨some [], some [], some [], some "m", []⟩
    "a" "HASHCODE0001" "u" "m" "453983442711" "de" "t"
    ⟨"f", "fa", "dn", "r", [], []⟩ (by decide)).2.2.2

/-- Claim C10 (counterexample): on a stored document missing the
custom_message key, update_user_balance with a hash code matching no
user still returns True and rewrites the file, but the resulting
document is the backfilled one, not equal to the prior document. -/
theorem update_balance_rewrites_backfilled :
    update_user_balance "t" (.stored ⟨some [], some [], some [], none, []⟩) "H" 5
      = .ok (true, .stored ⟨some [], some [], some [], some defaultMessage, []⟩) ∧
    (⟨some [], some [], some [], none, []⟩ : AdminDoc)
      ≠ ⟨some [], some [], some [], some defaultMessage, []⟩ :=
  ⟨rfl, by decide⟩

theorem setFirstBalance_nomatch (h : String) (b : Int) {l : List User}
    (hn : ∀ u ∈ l, u.hash_code ≠ h) : setFirstBalance h b l = l := by
  induction l with
  | nil => rfl
  | cons u us ih =>
    have hu : u.hash_code ≠ h := hn u (by simp)
    simp [setFirstBalance, hu, ih fun w hw => hn w (by simp [hw])]

theorem setFirstBalance_first (h : String) (b : Int) (u : User) (pre post : List User)
    (hpre : ∀ v ∈ pre, v.hash_code ≠ h) (hu : u.hash_code = h) :
    setFirstBalance h b (pre ++ u :: post) = pre ++ { u with balance := b } :: post := by
  induction pre with
  | nil => simp [setFirstBalance, hu]
  | cons v vs ih =>
    have hv : v.hash_code ≠ h := hpre v (by simp)
    simp [setFirstBalance, hv, ih fun w hw => hpre w (by simp [hw])]

/-- Claim C10 (amended): update_user_balance always returns True and
rewrites the file with the loaded (hence schema-backfilled) document;
when no user matches the hash code the persisted document equals the
backfilled prior document (equal to the prior document exactly when it
already carried all declared keys), and when exactly one user matches,
only that user record's balance field changes — every other user, every
other field of that user, and every other top-level key including the
undeclared ones are unchanged. -/
theorem update_balance_frame (now h : String) (b : Int) (d : AdminDoc) :
    ((∀ u ∈ d.users.getD [], u.hash_code ≠ h) →
      update_user_balance now (.stored d) h b = .ok (true, .stored (ensureKeys d))) ∧
    (∀ pre u post, d.users.getD [] = pre ++ u :: post → u.hash_code = h →
      (∀ v ∈ pre, v.hash_code ≠ h) → (∀ v ∈ post, v.hash_code ≠ h) →
      update_user_balance now (.stored d) h b =
        .ok (true, .stored { ensureKeys d with
          users := some (pre ++ { u with balance := b } :: post) })) := by
  have hload : update_user_balance now (.stored d) h b
      = .ok (true, .stored (updateBalanceDoc h b (ensureKeys d))) := rfl
  constructor
  · intro hn
    rw [hload, show updateBalanceDoc h b (ensureKeys d) = ensureKeys d from by
      unfold updateBalanceDoc
      rw [show (ensureKeys d).users.getD [] = d.users.getD [] from rfl,
        setFirstBalance_nomatch h b hn]
      rfl]
  · intro pre u post hl hu hpre _hpost
    rw [hload]
    unfold updateBalanceDoc
    rw [show (ensureKeys d).users.getD [] = d.users.getD [] from rfl, hl,
      setFirstBalance_first h b u pre post hpre hu]

theorem update_balance_frame_witness :
    update_user_balance "t"
      (.stored ⟨some [⟨1, "n", "A", 0, "t"⟩], some [], some [], some "m", []⟩) "A" 7
      = .ok (true, .stored { ensureKeys
          ⟨some [⟨1, "n", "A", 0, "t"⟩], some [], some [], some "m", []⟩ with
          users := some ([] ++ { (⟨1, "n", "A", 0, "t"⟩ : User) with balance := 7 } :: []) }) :=
  (update_balance_frame "t" "A" 7
    ⟨some [⟨1, "n", "A", 0, "t"⟩], some [], some [], some "m", []⟩).2
    [] ⟨1, "n", "A", 0, "t"⟩ [] rfl rfl (by simp) (by simp)

end Safe
